import Mathlib

/-!
Shallow embedding of the client-side aggregation and mutation logic of the
finance-tracker repository.

Sources embedded here:
  * the Dashboard component (`loadDashboardData`): total balance, monthly
    income/expense, savings rate, budget alerts;
  * the Loans component: `getMonthsRemaining`, the per-loan payoff progress;
  * the Accounts component: `totalBalance`;
  * `AddTransactionModal.handleSubmit`: transaction insert followed by a
    read-modify-write of the linked account's balance.

Conventions of the embedding:
  * monetary values are rationals (`ℚ`); JS `number` arithmetic on the small
    decimal amounts involved is exact, except for division, which is modelled
    with an explicit zero-divisor case (`jsDiv`): a JS division by zero yields
    a non-finite value (`Infinity`, `-Infinity` or `NaN`), modelled as `none`;
  * ISO date strings compare lexicographically in JS, which coincides with
    chronological order, so `transaction_date` is modelled as an integer
    timestamp ordered the same way;
  * database ids (uuids) are modelled as `Nat`;
  * supabase `select` with an explicit column list returns rows holding only
    those columns; reading an unselected column in JS gives `undefined`,
    modelled as `none` on an `Option` field of the projected row type.
-/

namespace FinanceTracker

/-- An `accounts` row (columns used by the embedded components). -/
structure AccountRow where
  id : Nat
  user_id : Nat
  name : String
  type : String
  balance : ℚ
  icon : String
  color : String
  is_active : Bool
deriving Repr, DecidableEq

/-- A `transactions` row (columns used by the embedded components). -/
structure TransactionRow where
  user_id : Nat
  account_id : Nat
  category_id : Option Nat
  amount : ℚ
  type : String
  transaction_date : Int
deriving Repr, DecidableEq

/-- A `budgets` row (columns used by the embedded components).
The schema declares `alert_at_percentage integer DEFAULT 80`. -/
structure BudgetRow where
  id : Nat
  user_id : Nat
  name : String
  amount : ℚ
  category_id : Option Nat
  alert_at_percentage : ℚ
  is_active : Bool
deriving Repr, DecidableEq

/-- JS division `a / b`: a zero divisor produces a non-finite value
(`Infinity`, `-Infinity` or `NaN`), modelled as `none`. -/
def jsDiv (a b : ℚ) : Option ℚ :=
  if b = 0 then none else some (a / b)

/-! ## Total balance

`Accounts.tsx`: `accounts.reduce((sum, acc) => sum + Number(acc.balance), 0)`;
the Dashboard computes the same reduce over the active-accounts query. -/

/-- `reduce((sum, acc) => sum + Number(acc.balance), 0)` over the fetched
account rows. -/
def totalBalance (accounts : List AccountRow) : ℚ :=
  accounts.foldl (fun s a => s + a.balance) 0

/-- The active-accounts query of the Dashboard:
`.eq('user_id', uid).eq('is_active', true)`. -/
def activeAccountsQuery (db : List AccountRow) (uid : Nat) : List AccountRow :=
  db.filter (fun a => a.user_id == uid && a.is_active)

/-! ## Monthly income / expense / savings rate

Dashboard: the month query is `.eq('user_id', uid).gte('transaction_date',
startOfMonth)` — note there is no upper bound at `now`.  Income and expense
are reduces over the type-filtered rows; the savings rate is
`income > 0 ? ((income - expense) / income) * 100 : 0`, stored through
`Math.max(0, savingsRate)`. -/

/-- The Dashboard month query: `.eq('user_id', uid)` and
`.gte('transaction_date', startOfMonth)` (lower bound only). -/
def monthlyTxQuery (db : List TransactionRow) (uid : Nat) (startOfMonth : Int) :
    List TransactionRow :=
  db.filter (fun t => t.user_id == uid && decide (startOfMonth ≤ t.transaction_date))

/-- `filter(t => t.type === 'income').reduce((sum, t) => sum + Number(t.amount), 0)`. -/
def monthlyIncome (rows : List TransactionRow) : ℚ :=
  (rows.filter (fun t => t.type == "income")).foldl (fun s t => s + t.amount) 0

/-- `filter(t => t.type === 'expense').reduce((sum, t) => sum + Number(t.amount), 0)`. -/
def monthlyExpense (rows : List TransactionRow) : ℚ :=
  (rows.filter (fun t => t.type == "expense")).foldl (fun s t => s + t.amount) 0

/-- `income > 0 ? ((income - expense) / income) * 100 : 0` (the branch guards
the division, so `jsDiv` is not needed here). -/
def savingsRate (income expense : ℚ) : ℚ :=
  if 0 < income then ((income - expense) / income) * 100 else 0

/-- The stored statistic: `Math.max(0, savingsRate)`. -/
def savingsRateStat (income expense : ℚ) : ℚ :=
  max 0 (savingsRate income expense)

/-! ## Budget alerts (Dashboard)

Budget query: `.select('id, name, amount, category_id, categories(name)')
.eq('user_id', uid).eq('is_active', true)`.  For each fetched budget, the
per-budget spent query is `.select('amount').eq('user_id', uid)
.eq('type', 'expense').gte('transaction_date', startOfMonth)` — the select
list contains ONLY `amount`, so `t.category_id` on a returned row is the JS
`undefined`, modelled as `none`.  The loop then computes
`percentage = (spent / Number(budget.amount)) * 100` and pushes an alert when
`percentage >= 80`. -/

/-- Row shape returned by the spent query `select('amount')`: the only column
fetched is `amount`; `category_id` was not selected, so reading it yields the
JS `undefined` (`none`). -/
structure SpentRow where
  amount : ℚ
  category_id : Option Nat
deriving Repr, DecidableEq

/-- The per-budget spent query: filter the transactions table by user, type
`'expense'` and `transaction_date >= startOfMonth`, then project onto the
select list `'amount'` (so `category_id := none` on every returned row). -/
def spentQuery (db : List TransactionRow) (uid : Nat) (startOfMonth : Int) :
    List SpentRow :=
  (db.filter (fun t =>
      t.user_id == uid && t.type == "expense" &&
        decide (startOfMonth ≤ t.transaction_date))).map
    (fun t => { amount := t.amount, category_id := none })

/-- The spent computation of the budget loop: when `budget.category_id` is
set (truthy), `transactions.filter(t => t.category_id === budget.category_id)`
then reduce; otherwise reduce over all rows.  The strict equality compares
the row's (unselected, hence `none`) `category_id` with the budget's. -/
def spentFor (b : BudgetRow) (rows : List SpentRow) : ℚ :=
  match b.category_id with
  | some c =>
      (rows.filter (fun t => t.category_id == some c)).foldl
        (fun s t => s + t.amount) 0
  | none => rows.foldl (fun s t => s + t.amount) 0

/-- The alert test `(spent / Number(budget.amount)) * 100 >= 80` under JS
semantics.  When `limit = 0`: `spent / 0` is `Infinity` for `spent > 0`
(so the comparison holds), `NaN` for `spent = 0` and `-Infinity` for
`spent < 0` (comparison fails in both cases). -/
def jsAlertCond (spent limit : ℚ) : Bool :=
  if limit = 0 then decide (0 < spent)
  else decide ((spent / limit) * 100 ≥ 80)

/-- The `percentage` field stored on a pushed alert:
`(spent / limit) * 100`, `none` when the JS value is non-finite. -/
def jsPct (spent limit : ℚ) : Option ℚ :=
  (jsDiv spent limit).map (fun q => q * 100)

/-- A `BudgetAlert` record as pushed by the Dashboard loop. -/
structure BudgetAlert where
  id : Nat
  name : String
  spent : ℚ
  limit : ℚ
  percentage : Option ℚ
deriving Repr, DecidableEq

/-- The alert record pushed for a budget. -/
def alertEntry (rows : List SpentRow) (b : BudgetRow) : BudgetAlert :=
  { id := b.id
    name := b.name
    spent := spentFor b rows
    limit := b.amount
    percentage := jsPct (spentFor b rows) b.amount }

/-- The `for (const budget of budgetsRes.data)` loop: push an alert exactly
when `percentage >= 80` (the threshold is the literal 80; the budget's
`alert_at_percentage` column is not even in the select list). -/
def budgetAlertLoop : List BudgetRow → List SpentRow → List BudgetAlert
  | [], _ => []
  | b :: rest, rows =>
      if jsAlertCond (spentFor b rows) b.amount then
        alertEntry rows b :: budgetAlertLoop rest rows
      else
        budgetAlertLoop rest rows

/-- The budgets query filter of the Dashboard:
`.eq('user_id', uid).eq('is_active', true)`. -/
def activeBudgetsQuery (budgets : List BudgetRow) (uid : Nat) : List BudgetRow :=
  budgets.filter (fun b => b.user_id == uid && b.is_active)

/-- The whole budget-alert computation: run the loop over the fetched
(user-scoped, active) budgets against the spent-query rows. -/
def dashboardBudgetAlerts (budgets : List BudgetRow) (db : List TransactionRow)
    (uid : Nat) (startOfMonth : Int) : List BudgetAlert :=
  budgetAlertLoop (activeBudgetsQuery budgets uid) (spentQuery db uid startOfMonth)

/-! ## Loans -/

/-- A `loans` row (columns used by the Loans component). -/
structure LoanRow where
  id : Nat
  user_id : Nat
  name : String
  principal_amount : ℚ
  remaining_amount : ℚ
  end_date : Option Int
deriving Repr, DecidableEq

/-- `((loan.principal_amount - loan.remaining_amount) / loan.principal_amount) * 100`
— the division is unguarded, so a zero principal yields a non-finite JS value
(`NaN` when `remaining = 0`, otherwise `±Infinity`), modelled as `none`. -/
def loanProgress (principal remaining : ℚ) : Option ℚ :=
  (jsDiv (principal - remaining) principal).map (fun q => q * 100)

/-- The progress-bar width `Math.min(loanProgress, 100)`: an upper cap at 100,
no lower clamp.  (On a non-finite progress value the width is itself not a
finite percentage; the `none` case is kept as `none`.) -/
def loanBarWidth (principal remaining : ℚ) : Option ℚ :=
  (loanProgress principal remaining).map (fun q => min q 100)

/-- A JS `Date` as read by `getMonthsRemaining`: only `getFullYear()` and
`getMonth()` are used (month is the 0-based calendar month). -/
structure JSDate where
  year : Int
  month : Int
deriving Repr, DecidableEq

/-- `getMonthsRemaining`: `null` end date gives `null`; otherwise
`(end.getFullYear() - today.getFullYear()) * 12 + (end.getMonth() - today.getMonth())`
clamped through `Math.max(0, months)`. -/
def getMonthsRemaining (endDate : Option JSDate) (today : JSDate) : Option Int :=
  endDate.map (fun e =>
    max 0 ((e.year - today.year) * 12 + (e.month - today.month)))

/-- Absolute month index of a date: `12 * year + month`.  The difference of
two month indices is the calendar-month difference between the dates. -/
def monthIndex (d : JSDate) : Int :=
  12 * d.year + d.month

/-- The date `k` calendar months after `d`, with the month normalised back
into `0..11`. -/
def addCalendarMonths (d : JSDate) (k : Int) : JSDate :=
  { year := d.year + (d.month + k) / 12
    month := (d.month + k) % 12 }

/-! ## Mutation flow: `AddTransactionModal.handleSubmit`

(1) insert the transaction row; (2) re-read the linked account's `balance`
(`.select('balance').eq('id', accountId).single()`); (3) when the read
returns a row, compute `type === 'income' ? balance + amount : balance - amount`;
(4) `update({ balance: newBalance }).eq('id', accountId)`. -/

/-- Client-visible database state touched by `handleSubmit`. -/
structure AppState where
  transactions : List TransactionRow
  accounts : List AccountRow
deriving Repr, DecidableEq

/-- The re-read `.select('balance').eq('id', accountId).single()`. -/
def findAccount (accounts : List AccountRow) (aid : Nat) : Option AccountRow :=
  accounts.find? (fun a => a.id == aid)

/-- `update({ balance: newBalance }).eq('id', accountId)`: every row whose
`id` matches gets its `balance` column replaced; no other column and no other
row is written. -/
def updateBalance (accounts : List AccountRow) (aid : Nat) (newBal : ℚ) :
    List AccountRow :=
  accounts.map (fun a => if a.id == aid then { a with balance := newBal } else a)

/-- `type === 'income' ? currentBalance + amount : currentBalance - amount`. -/
def newBalanceFor (txType : String) (currentBalance amount : ℚ) : ℚ :=
  if txType == "income" then currentBalance + amount else currentBalance - amount

/-- The whole `handleSubmit` flow on the embedded state: insert the
transaction, re-read the account, and (when found) write the new balance. -/
def handleSubmitRecord (st : AppState) (uid aid : Nat) (cat : Option Nat)
    (amount : ℚ) (txType : String) (date : Int) : AppState :=
  let txRow : TransactionRow :=
    { user_id := uid, account_id := aid, category_id := cat
      amount := amount, type := txType, transaction_date := date }
  let st1 : AppState := { st with transactions := st.transactions ++ [txRow] }
  match findAccount st1.accounts aid with
  | some acc =>
      { st1 with
          accounts :=
            updateBalance st1.accounts aid (newBalanceFor txType acc.balance amount) }
  | none => st1

/-! ## Spec-side comparison definitions

These follow the specification's words (not the source) and exist only to be
compared against the corresponding code-derived definitions above. -/

/-- Following the spec's words, for comparison with the code's `spentFor` and
`spentQuery`: sum of amounts of the user's current-month (`som ≤ date ≤ now`)
expense transactions whose category equals the budget's category when the
budget has one, else over all such transactions. -/
def specBudgetSpent (db : List TransactionRow) (uid : Nat) (som now : Int)
    (b : BudgetRow) : ℚ :=
  match b.category_id with
  | some c =>
      ((db.filter (fun t =>
          t.user_id == uid && t.type == "expense" &&
            decide (som ≤ t.transaction_date) &&
              decide (t.transaction_date ≤ now) &&
                t.category_id == some c)).map (fun t => t.amount)).sum
  | none =>
      ((db.filter (fun t =>
          t.user_id == uid && t.type == "expense" &&
            decide (som ≤ t.transaction_date) &&
              decide (t.transaction_date ≤ now))).map (fun t => t.amount)).sum

/-- Following the spec's words, for comparison with the code's
`monthlyIncome` after `monthlyTxQuery`: sum of income amounts dated within
the closed interval `[som, now]`. -/
def specMonthlyIncome (db : List TransactionRow) (uid : Nat) (som now : Int) : ℚ :=
  ((db.filter (fun t =>
      t.user_id == uid && t.type == "income" &&
        decide (som ≤ t.transaction_date) &&
          decide (t.transaction_date ≤ now))).map (fun t => t.amount)).sum

/-- Following the spec's words, for comparison with the code's
`loanProgress`: payoff percentage clamped to the interval `[0, 100]`. -/
def specLoanPayoffClamped (principal remaining : ℚ) : ℚ :=
  max 0 (min 100 ((principal - remaining) / principal * 100))

/-! ## Concrete sample data for witnesses and counterexamples -/

/-- A sample account with balance 1000 (end-to-end scenario 1). -/
def sampleAccount1 : AccountRow :=
  { id := 1, user_id := 1, name := "Main Bank", type := "bank"
    balance := 1000, icon := "w", color := "blue", is_active := true }

/-- A second sample account, untouched by the scenario-1 transaction. -/
def sampleAccount2 : AccountRow :=
  { id := 2, user_id := 1, name := "Cash", type := "cash"
    balance := 250, icon := "p", color := "green", is_active := true }

/-- Sample state holding the two sample accounts and no transactions. -/
def sampleState : AppState :=
  { transactions := [], accounts := [sampleAccount1, sampleAccount2] }

/-- End-to-end scenario 2 transactions: incomes 5000 and 3000 and an expense
of 2000, all dated inside the current month (start of month at 0). -/
def scen2Db : List TransactionRow :=
  [ { user_id := 1, account_id := 1, category_id := none
      amount := 5000, type := "income", transaction_date := 3 }
  , { user_id := 1, account_id := 1, category_id := none
      amount := 3000, type := "income", transaction_date := 7 }
  , { user_id := 1, account_id := 1, category_id := none
      amount := 2000, type := "expense", transaction_date := 9 } ]

/-- A single income transaction dated after `now = 20` but in the open-ended
range the code queries (start of month at 0). -/
def futureDb : List TransactionRow :=
  [ { user_id := 1, account_id := 1, category_id := none
      amount := 100, type := "income", transaction_date := 25 } ]

/-- A category-less active budget with limit 1000 and a per-budget alert
threshold of 100. -/
def cexBudget : BudgetRow :=
  { id := 1, user_id := 1, name := "Food", amount := 1000
    category_id := none, alert_at_percentage := 100, is_active := true }

/-- One current-month expense of 850 for the user (start of month at 0). -/
def cexDb : List TransactionRow :=
  [ { user_id := 1, account_id := 1, category_id := none
      amount := 850, type := "expense", transaction_date := 5 } ]

/-- An active budget scoped to category 7 with limit 1000. -/
def catBudget : BudgetRow :=
  { id := 2, user_id := 1, name := "Groceries", amount := 1000
    category_id := some 7, alert_at_percentage := 80, is_active := true }

/-- One current-month expense of 100 in category 7 (start of month at 0,
dated well before `now = 20`). -/
def catDb : List TransactionRow :=
  [ { user_id := 1, account_id := 1, category_id := some 7
      amount := 100, type := "expense", transaction_date := 5 } ]

/-! ## Helper lemmas -/

/-- A `reduce((s, t) => s + f(t), c)` is `c` plus the sum of the mapped
list. -/
theorem foldl_add_eq_sum {α : Type} (f : α → ℚ) (l : List α) (c : ℚ) :
    l.foldl (fun s a => s + f a) c = c + (l.map f).sum := by
  induction l generalizing c with
  | nil => simp
  | cons x xs ih => simp [ih, add_assoc]

/-- The budget for-loop pushes exactly the alert entries of the budgets
passing the hardcoded `percentage >= 80` test, in order. -/
theorem budgetAlertLoop_eq (bs : List BudgetRow) (rows : List SpentRow) :
    budgetAlertLoop bs rows
      = (bs.filter (fun b => jsAlertCond (spentFor b rows) b.amount)).map
          (alertEntry rows) := by
  induction bs with
  | nil => rfl
  | cons b rest ih =>
      by_cases h : jsAlertCond (spentFor b rows) b.amount
      · simp [budgetAlertLoop, h, ih]
      · simp [budgetAlertLoop, h, ih]

/-- Re-reading an account after the balance write finds the same account
with only its balance replaced. -/
theorem findAccount_updateBalance (accounts : List AccountRow) (aid : Nat)
    (newBal : ℚ) :
    findAccount (updateBalance accounts aid newBal) aid
      = (findAccount accounts aid).map (fun a => { a with balance := newBal }) := by
  unfold findAccount updateBalance
  induction accounts with
  | nil => rfl
  | cons a rest ih =>
      by_cases h : a.id = aid
      · simp [List.find?_cons, h, -List.find?_map]
      · simp [List.find?_cons, h, -List.find?_map]
        simpa [-List.find?_map] using ih

/-- The expense total of transactions with non-negative amounts is
non-negative. -/
theorem monthlyExpense_nonneg (txs : List TransactionRow)
    (h : ∀ t ∈ txs, 0 ≤ t.amount) : 0 ≤ monthlyExpense txs := by
  unfold monthlyExpense
  rw [foldl_add_eq_sum, zero_add]
  apply List.sum_nonneg
  intro q hq
  obtain ⟨t, ht, rfl⟩ := List.mem_map.mp hq
  exact h t (List.mem_of_mem_filter ht)

/-! ## Claim theorems -/

/-- C7: the total balance equals the arithmetic sum of each account's
`balance` field as computed by the reduce, and is invariant under any
permutation of the account list. -/
theorem totalBalance_eq_sum_and_perm_invariant (xs ys : List AccountRow)
    (h : xs.Perm ys) :
    totalBalance xs = (xs.map (fun a => a.balance)).sum ∧
    totalBalance xs = totalBalance ys := by
  have hx : ∀ l : List AccountRow,
      totalBalance l = (l.map (fun a => a.balance)).sum := by
    intro l
    unfold totalBalance
    rw [foldl_add_eq_sum, zero_add]
  refine ⟨hx xs, ?_⟩
  rw [hx xs, hx ys]
  exact List.Perm.sum_eq (h.map _)

/-- Witness for C7 at the two sample accounts and their swap. -/
theorem totalBalance_perm_witness :
    totalBalance [sampleAccount1, sampleAccount2]
        = ([sampleAccount1, sampleAccount2].map (fun a => a.balance)).sum ∧
    totalBalance [sampleAccount1, sampleAccount2]
        = totalBalance [sampleAccount2, sampleAccount1] :=
  totalBalance_eq_sum_and_perm_invariant
    [sampleAccount1, sampleAccount2] [sampleAccount2, sampleAccount1]
    (List.Perm.swap sampleAccount2 sampleAccount1 [])

/-- C4: for a non-negative monthly income total `I` and transactions with
non-negative amounts, the stored savings rate is
`max 0 ((I - expense) / I * 100)` when `I > 0` and `0` when `I = 0`; it lies
in `[0, 100]` and vanishes exactly when `I = 0` or the expense total is at
least `I`. -/
theorem savingsRateStat_spec (I : ℚ) (txs : List TransactionRow)
    (hI : 0 ≤ I) (hamt : ∀ t ∈ txs, 0 ≤ t.amount) :
    (0 < I → savingsRateStat I (monthlyExpense txs)
        = max 0 ((I - monthlyExpense txs) / I * 100)) ∧
    (I = 0 → savingsRateStat I (monthlyExpense txs) = 0) ∧
    0 ≤ savingsRateStat I (monthlyExpense txs) ∧
    savingsRateStat I (monthlyExpense txs) ≤ 100 ∧
    (savingsRateStat I (monthlyExpense txs) = 0 ↔
      I = 0 ∨ I ≤ monthlyExpense txs) := by
  have hE : 0 ≤ monthlyExpense txs := monthlyExpense_nonneg txs hamt
  set E := monthlyExpense txs with hEdef
  refine ⟨?_, ?_, le_max_left _ _, ?_, ?_⟩
  · intro hpos
    unfold savingsRateStat savingsRate
    rw [if_pos hpos]
  · intro h0
    subst h0
    unfold savingsRateStat savingsRate
    rw [if_neg (lt_irrefl 0)]
    simp
  · rcases eq_or_lt_of_le hI with h0 | hpos
    · unfold savingsRateStat savingsRate
      rw [if_neg (by rw [← h0]; exact lt_irrefl 0)]
      simp
    · unfold savingsRateStat savingsRate
      rw [if_pos hpos]
      apply max_le (by norm_num)
      have h1 : (I - E) / I ≤ 1 := by
        rw [div_le_one hpos]
        linarith
      nlinarith
  · rcases eq_or_lt_of_le hI with h0 | hpos
    · constructor
      · intro _
        exact Or.inl h0.symm
      · intro _
        unfold savingsRateStat savingsRate
        rw [if_neg (by rw [← h0]; exact lt_irrefl 0)]
        simp
    · unfold savingsRateStat savingsRate
      rw [if_pos hpos]
      constructor
      · intro h0
        by_contra hc
        push_neg at hc
        obtain ⟨-, hEI⟩ := hc
        have hq : 0 < (I - E) / I := div_pos (by linarith) hpos
        have hx : 0 < (I - E) / I * 100 := by nlinarith
        rw [max_eq_right hx.le] at h0
        linarith
      · intro hor
        rcases hor with h0 | hEI
        · exact absurd h0 (by linarith)
        · have hq : (I - E) / I ≤ 0 :=
            div_nonpos_iff.mpr (Or.inr ⟨by linarith, hpos.le⟩)
          have hx : (I - E) / I * 100 ≤ 0 := by nlinarith
          exact max_eq_left hx

/-- Witness for C4 at income 8000 against the scenario-2 transactions. -/
theorem savingsRateStat_spec_witness :
    (0 < (8000 : ℚ) → savingsRateStat 8000 (monthlyExpense scen2Db)
        = max 0 ((8000 - monthlyExpense scen2Db) / 8000 * 100)) ∧
    ((8000 : ℚ) = 0 → savingsRateStat 8000 (monthlyExpense scen2Db) = 0) ∧
    0 ≤ savingsRateStat 8000 (monthlyExpense scen2Db) ∧
    savingsRateStat 8000 (monthlyExpense scen2Db) ≤ 100 ∧
    (savingsRateStat 8000 (monthlyExpense scen2Db) = 0 ↔
      (8000 : ℚ) = 0 ∨ (8000 : ℚ) ≤ monthlyExpense scen2Db) :=
  savingsRateStat_spec 8000 scen2Db (by norm_num) (by decide)

/-- C9: the months-remaining value for a non-null end date is the
calendar-month difference (difference of absolute month indices) clamped to
a minimum of 0, and an end date exactly 6 calendar months after today gives
6; a null end date gives null. -/
theorem getMonthsRemaining_spec (today e : JSDate) :
    getMonthsRemaining (some e) today
        = some (max 0 (monthIndex e - monthIndex today)) ∧
    getMonthsRemaining none today = none ∧
    getMonthsRemaining (some (addCalendarMonths today 6)) today = some 6 := by
  refine ⟨?_, rfl, ?_⟩
  · unfold getMonthsRemaining monthIndex
    simp only [Option.map_some']
    congr 1
    congr 1
    ring
  · unfold getMonthsRemaining addCalendarMonths
    simp only [Option.map_some']
    have h := Int.ediv_add_emod (today.month + 6) 12
    have h6 : (today.year + (today.month + 6) / 12 - today.year) * 12 +
        ((today.month + 6) % 12 - today.month) = 6 := by
      ring_nf
      ring_nf at h
      linarith
    rw [h6]
    rfl

/-- C5 counterexample: with principal 100 and remaining 150 the code shows
-50% — the spec's `[0, 100]` clamp would show 0 — and even the progress-bar
width is -50 (`Math.min` caps only above). -/
theorem loanProgress_clamp_cex :
    loanProgress 100 150 = some (-50) ∧
    specLoanPayoffClamped 100 150 = 0 ∧
    loanBarWidth 100 150 = some (-50) ∧
    some ((-50 : ℚ)) ≠ some ((0 : ℚ)) := by
  refine ⟨?_, ?_, ?_, by norm_num⟩
  · norm_num [loanProgress, jsDiv]
  · unfold specLoanPayoffClamped
    norm_num
  · norm_num [loanBarWidth, loanProgress, jsDiv, min_def]

/-- C5 amended: for a non-zero principal the shown payoff percentage is the
raw `(principal - remaining) / principal * 100` with no lower clamp, and the
progress-bar width additionally caps it above at 100 via `Math.min`. -/
theorem loanProgress_formula (principal remaining : ℚ) (h : principal ≠ 0) :
    loanProgress principal remaining
        = some ((principal - remaining) / principal * 100) ∧
    loanBarWidth principal remaining
        = some (min ((principal - remaining) / principal * 100) 100) := by
  unfold loanBarWidth loanProgress jsDiv
  rw [if_neg h]
  exact ⟨rfl, rfl⟩

/-- Witness for C5 amended at scenario 3 (principal 100000, remaining
40000): shown payoff 60%, bar width 60. -/
theorem loanProgress_formula_witness :
    loanProgress 100000 40000 = some 60 ∧ loanBarWidth 100000 40000 = some 60 := by
  have h := loanProgress_formula 100000 40000 (by norm_num)
  exact ⟨h.1.trans (by norm_num), h.2.trans (by norm_num [min_def])⟩

/-- C6: the savings-rate division is guarded (income 0 yields 0), but the
loan payoff division is not: a zero-principal loan produces a non-finite JS
value (`NaN` or `-Infinity`), not the 0 the spec requires. -/
theorem division_guard_bug :
    savingsRateStat 0 500 = 0 ∧
    savingsRateStat 0 0 = 0 ∧
    loanProgress 0 0 = none ∧
    loanProgress 0 40000 = none ∧
    loanProgress 0 0 ≠ some 0 := by
  refine ⟨?_, ?_, ?_, ?_, ?_⟩
  · unfold savingsRateStat savingsRate
    norm_num
  · unfold savingsRateStat savingsRate
    norm_num
  · norm_num [loanProgress, jsDiv]
  · norm_num [loanProgress, jsDiv]
  · simp [loanProgress, jsDiv]

/-- C1 counterexample: an active category-less budget with
`alert_at_percentage = 100` and limit 1000 against one current-month expense
of 850: the computed percentage is 85, strictly below the budget's own
threshold, yet the dashboard pushes the alert (its test is the literal 80). -/
theorem budget_alert_threshold_cex :
    dashboardBudgetAlerts [cexBudget] cexDb 1 0
        = [alertEntry (spentQuery cexDb 1 0) cexBudget] ∧
    jsPct (spentFor cexBudget (spentQuery cexDb 1 0)) cexBudget.amount
        = some 85 ∧
    ¬ ((85 : ℚ) ≥ cexBudget.alert_at_percentage) := by
  refine ⟨?_, ?_, ?_⟩
  · norm_num [dashboardBudgetAlerts, activeBudgetsQuery, budgetAlertLoop,
      cexBudget, cexDb, spentQuery, spentFor, jsAlertCond, List.filter,
      List.foldl]
  · norm_num [jsPct, jsDiv, spentFor, spentQuery, cexBudget, cexDb,
      List.filter, List.foldl]
  · norm_num [cexBudget]

/-- C1 amended: the dashboard pushes an alert exactly for the budgets of the
active fetch (user-scoped, `is_active = true`) whose code-computed spend
percentage passes the hardcoded `>= 80` test; the per-budget
`alert_at_percentage` field is never consulted, and inactive budgets are
filtered out by the query so they never alert. -/
theorem dashboardBudgetAlerts_iff (budgets : List BudgetRow)
    (db : List TransactionRow) (uid : Nat) (som : Int) :
    dashboardBudgetAlerts budgets db uid som
      = ((activeBudgetsQuery budgets uid).filter
          (fun b => jsAlertCond (spentFor b (spentQuery db uid som)) b.amount)).map
          (alertEntry (spentQuery db uid som)) := by
  unfold dashboardBudgetAlerts
  exact budgetAlertLoop_eq _ _

/-- C2 code-bug theorem: the per-budget spent query selects only `amount`,
so the category filter compares the JS `undefined` with the budget's
category id and keeps nothing: a category-7 budget against one matching
current-month expense of 100 computes spent 0, while the spec's sum of
matching expenses is 100. -/
theorem budget_spent_category_bug :
    spentFor catBudget (spentQuery catDb 1 0) = 0 ∧
    specBudgetSpent catDb 1 0 20 catBudget = 100 ∧
    (0 : ℚ) ≠ 100 := by
  refine ⟨?_, ?_, by norm_num⟩
  · norm_num [spentFor, spentQuery, catBudget, catDb, List.filter, List.foldl]
  · norm_num [specBudgetSpent, catBudget, catDb, List.filter]

/-- C8 counterexample: an income transaction dated after `now` (date 25,
`now = 20`) is included by the code's lower-bound-only month query, while
the spec's closed interval `[startOfMonth, now]` excludes it. -/
theorem monthly_upper_bound_cex :
    monthlyIncome (monthlyTxQuery futureDb 1 0) = 100 ∧
    specMonthlyIncome futureDb 1 0 20 = 0 ∧
    (100 : ℚ) ≠ 0 := by
  refine ⟨?_, ?_, by norm_num⟩
  · norm_num [monthlyIncome, monthlyTxQuery, futureDb, List.filter, List.foldl]
  · norm_num [specMonthlyIncome, futureDb, List.filter]

/-- C8 amended: monthly income (resp. expense) is the sum of amounts of the
user's transactions of that type dated on or after the first day of the
current month — the query has no upper bound at `now` — and scenario 2
(incomes 5000 and 3000, expense 2000 in the current month) yields income
8000, expense 2000 and savings rate 75. -/
theorem monthly_totals_spec :
    (∀ (db : List TransactionRow) (uid : Nat) (som : Int),
      monthlyIncome (monthlyTxQuery db uid som)
          = ((db.filter (fun t =>
              t.type == "income" &&
                (t.user_id == uid && decide (som ≤ t.transaction_date)))).map
              (fun t => t.amount)).sum ∧
      monthlyExpense (monthlyTxQuery db uid som)
          = ((db.filter (fun t =>
              t.type == "expense" &&
                (t.user_id == uid && decide (som ≤ t.transaction_date)))).map
              (fun t => t.amount)).sum) ∧
    monthlyIncome (monthlyTxQuery scen2Db 1 0) = 8000 ∧
    monthlyExpense (monthlyTxQuery scen2Db 1 0) = 2000 ∧
    savingsRateStat 8000 2000 = 75 := by
  refine ⟨?_, ?_, ?_, ?_⟩
  case refine_2 =>
    norm_num [monthlyIncome, monthlyTxQuery, scen2Db, List.filter, List.foldl]
  case refine_3 =>
    norm_num [monthlyExpense, monthlyTxQuery, scen2Db, List.filter, List.foldl]
  · intro db uid som
    constructor
    · unfold monthlyIncome monthlyTxQuery
      rw [foldl_add_eq_sum, zero_add, List.filter_filter]
    · unfold monthlyExpense monthlyTxQuery
      rw [foldl_add_eq_sum, zero_add, List.filter_filter]
  · unfold savingsRateStat savingsRate
    norm_num

/-- C3: recording a transaction of amount `A` against an account found with
prior balance `B` stores balance `B + A` for an income transaction and
`B - A` for an expense transaction. -/
theorem handleSubmit_balance (st : AppState) (uid aid : Nat) (cat : Option Nat)
    (A : ℚ) (ty : String) (date : Int) (acc : AccountRow)
    (hfind : findAccount st.accounts aid = some acc) :
    (ty = "income" →
      (findAccount (handleSubmitRecord st uid aid cat A ty date).accounts aid).map
          (fun a => a.balance) = some (acc.balance + A)) ∧
    (ty = "expense" →
      (findAccount (handleSubmitRecord st uid aid cat A ty date).accounts aid).map
          (fun a => a.balance) = some (acc.balance - A)) := by
  have hres :
      (handleSubmitRecord st uid aid cat A ty date).accounts
        = updateBalance st.accounts aid (newBalanceFor ty acc.balance A) := by
    unfold handleSubmitRecord
    simp only [hfind]
  constructor
  · intro hty
    subst hty
    rw [hres, findAccount_updateBalance, hfind]
    simp [newBalanceFor]
  · intro hty
    subst hty
    rw [hres, findAccount_updateBalance, hfind]
    simp [newBalanceFor]

/-- Witness for C3 at end-to-end scenario 1: balance 1000, expense 150,
stored balance 850. -/
theorem handleSubmit_balance_witness :
    (findAccount (handleSubmitRecord sampleState 1 1 none 150 "expense" 5).accounts 1).map
        (fun a => a.balance) = some 850 := by
  have h := (handleSubmit_balance sampleState 1 1 none 150 "expense" 5
    sampleAccount1 (by decide)).2 rfl
  rw [h]
  norm_num [sampleAccount1]

/-- C10: the insert-and-update flow touches only the balance column of the
accounts whose id is the transaction target: the account list keeps its
length, any account at a position whose id differs from the target is fully
unchanged, and at every position every column other than `balance` is
unchanged. -/
theorem handleSubmit_frame (st : AppState) (uid aid : Nat) (cat : Option Nat)
    (A : ℚ) (ty : String) (date : Int) :
    (handleSubmitRecord st uid aid cat A ty date).accounts.length
        = st.accounts.length ∧
    ∀ (i : Nat) (h1 : i < st.accounts.length)
      (h2 : i < (handleSubmitRecord st uid aid cat A ty date).accounts.length),
      ((st.accounts.get ⟨i, h1⟩).id ≠ aid →
        (handleSubmitRecord st uid aid cat A ty date).accounts.get ⟨i, h2⟩
          = st.accounts.get ⟨i, h1⟩) ∧
      ((handleSubmitRecord st uid aid cat A ty date).accounts.get ⟨i, h2⟩).id
          = (st.accounts.get ⟨i, h1⟩).id ∧
      ((handleSubmitRecord st uid aid cat A ty date).accounts.get ⟨i, h2⟩).user_id
          = (st.accounts.get ⟨i, h1⟩).user_id ∧
      ((handleSubmitRecord st uid aid cat A ty date).accounts.get ⟨i, h2⟩).name
          = (st.accounts.get ⟨i, h1⟩).name ∧
      ((handleSubmitRecord st uid aid cat A ty date).accounts.get ⟨i, h2⟩).type
          = (st.accounts.get ⟨i, h1⟩).type ∧
      ((handleSubmitRecord st uid aid cat A ty date).accounts.get ⟨i, h2⟩).icon
          = (st.accounts.get ⟨i, h1⟩).icon ∧
      ((handleSubmitRecord st uid aid cat A ty date).accounts.get ⟨i, h2⟩).color
          = (st.accounts.get ⟨i, h1⟩).color ∧
      ((handleSubmitRecord st uid aid cat A ty date).accounts.get ⟨i, h2⟩).is_active
          = (st.accounts.get ⟨i, h1⟩).is_active := by
  have hcases :
      (handleSubmitRecord st uid aid cat A ty date).accounts = st.accounts ∨
      ∃ nb, (handleSubmitRecord st uid aid cat A ty date).accounts
          = updateBalance st.accounts aid nb := by
    unfold handleSubmitRecord
    cases hf : findAccount st.accounts aid with
    | none => exact Or.inl (by simp only [hf])
    | some acc =>
        exact Or.inr ⟨newBalanceFor ty acc.balance A, by simp only [hf]⟩
  rcases hcases with heq | ⟨nb, heq⟩
  · rw [heq]
    exact ⟨rfl, fun i h1 h2 => ⟨fun _ => rfl, rfl, rfl, rfl, rfl, rfl, rfl, rfl⟩⟩
  · rw [heq]
    unfold updateBalance
    refine ⟨List.length_map _ _, ?_⟩
    intro i h1 h2
    have hget : ∀ (h3 : i < (st.accounts.map (fun a =>
        if a.id == aid then { a with balance := nb } else a)).length),
        (st.accounts.map (fun a =>
          if a.id == aid then { a with balance := nb } else a)).get ⟨i, h3⟩
          = if (st.accounts.get ⟨i, h1⟩).id == aid then
              { st.accounts.get ⟨i, h1⟩ with balance := nb }
            else st.accounts.get ⟨i, h1⟩ := by
      intro h3
      simp [List.get_eq_getElem, List.getElem_map]
    rw [hget h2]
    by_cases hid : (st.accounts.get ⟨i, h1⟩).id = aid
    · simp only [List.get_eq_getElem] at hid
      simp [hid]
    · simp only [List.get_eq_getElem] at hid
      simp [hid]

/-- Witness for C10: inserting an expense against account 1 leaves the
account at position 1 (id 2) fully unchanged. -/
theorem handleSubmit_frame_witness :
    (handleSubmitRecord sampleState 1 1 none 150 "expense" 5).accounts.get
        ⟨1, by decide⟩ = sampleState.accounts.get ⟨1, by decide⟩ := by
  exact ((handleSubmit_frame sampleState 1 1 none 150 "expense" 5).2 1
    (by decide) (by decide)).1 (by decide)

end FinanceTracker
